import Mathlib

/-!
Shallow embedding of the URBANITE parking-aid controller core
(button / ultrasound / display / master FSMs) translated from the C
sources, together with theorems settling the specification claims.

Machine integers are modelled as Nat with explicit reductions modulo
2^32 where the C code performs unsigned 32-bit arithmetic that can
wrap.  Struct-mutating C functions become pure state transformers.
-/

/-- Modulus of 32-bit unsigned arithmetic. -/
def M32 : Nat := 4294967296

/-- C unsigned 32-bit subtraction, for operands already reduced mod 2^32. -/
def u32_sub (a b : Nat) : Nat := (a + M32 - b % M32) % M32

/-- C unsigned 32-bit addition. -/
def u32_add (a b : Nat) : Nat := (a + b) % M32

/-- Modelled from the spec: FSM_ULTRASOUND_NUM_MEASUREMENTS is declared in
fsm_ultrasound.h, which is absent from the sources; the spec fixes the
median window to N = 5. -/
def FSM_ULTRASOUND_NUM_MEASUREMENTS : Nat := 5

/-- From fsm_display.h: minimum distance in cm of the DANGER range. -/
def DANGER_MIN_CM : Nat := 0

/-- From fsm_display.h: minimum distance in cm of the WARNING range. -/
def WARNING_MIN_CM : Nat := 25

/-- From fsm_display.h: minimum distance in cm of the NO_PROBLEM range. -/
def NO_PROBLEM_MIN_CM : Nat := 50

/-- From fsm_display.h: minimum distance in cm of the INFO range. -/
def INFO_MIN_CM : Nat := 150

/-- From fsm_display.h: minimum distance in cm of the OK range. -/
def OK_MIN_CM : Nat := 175

/-- From fsm_display.h: maximum distance in cm of the OK range. -/
def OK_MAX_CM : Nat := 200

/-!
Hardware-mirror record of one ultrasound sensor, from
stm32f4_ultrasound.c (stm32f4_ultrasound_hw_t plus the enable bits of
the three timers TIM2 echo / TIM3 trigger / TIM5 cycle).
-/

/-- Port-layer state of the rear ultrasound sensor. -/
structure PortUltrasound where
  trigger_ready : Bool
  trigger_end : Bool
  echo_received : Bool
  echo_init_tick : Nat
  echo_end_tick : Nat
  echo_overflows : Nat
  echo_timer_on : Bool
  trigger_timer_on : Bool
  cycle_timer_on : Bool
deriving Repr, DecidableEq

/-- port_ultrasound_reset_echo_ticks from stm32f4_ultrasound.c. -/
def port_ultrasound_reset_echo_ticks (p : PortUltrasound) : PortUltrasound :=
  { p with echo_received := false, echo_end_tick := 0, echo_init_tick := 0,
           echo_overflows := 0 }

/-- port_ultrasound_stop_echo_timer from stm32f4_ultrasound.c (TIM2 disabled). -/
def port_ultrasound_stop_echo_timer (p : PortUltrasound) : PortUltrasound :=
  { p with echo_timer_on := false }

/-- port_ultrasound_stop_trigger_timer from stm32f4_ultrasound.c (TIM3 disabled). -/
def port_ultrasound_stop_trigger_timer (p : PortUltrasound) : PortUltrasound :=
  { p with trigger_timer_on := false }

/-- port_ultrasound_stop_new_measurement_timer from stm32f4_ultrasound.c (TIM5 disabled). -/
def port_ultrasound_stop_new_measurement_timer (p : PortUltrasound) : PortUltrasound :=
  { p with cycle_timer_on := false }

/-- port_ultrasound_start_new_measurement_timer from stm32f4_ultrasound.c (TIM5 enabled). -/
def port_ultrasound_start_new_measurement_timer (p : PortUltrasound) : PortUltrasound :=
  { p with cycle_timer_on := true }

/-- port_ultrasound_set_trigger_ready from stm32f4_ultrasound.c. -/
def port_ultrasound_set_trigger_ready (p : PortUltrasound) (b : Bool) : PortUltrasound :=
  { p with trigger_ready := b }

/-- port_ultrasound_stop_ultrasound from stm32f4_ultrasound.c: stop the three
timers and clear the echo capture state. -/
def port_ultrasound_stop_ultrasound (p : PortUltrasound) : PortUltrasound :=
  port_ultrasound_reset_echo_ticks
    (port_ultrasound_stop_new_measurement_timer
      (port_ultrasound_stop_echo_timer
        (port_ultrasound_stop_trigger_timer p)))

/-- Software state of the ultrasound FSM, from struct fsm_ultrasound_t in
fsm_ultrasound.c (the embedded generic fsm_t contributes current_state). -/
structure fsm_ultrasound_t where
  current_state : Nat
  distance_cm : Nat
  status : Bool
  new_measurement : Bool
  distance_arr : List Nat
  distance_idx : Nat
deriving Repr, DecidableEq

/-- Insertion of a value into a sorted list of naturals. -/
def insertSorted (x : Nat) : List Nat → List Nat
  | [] => [x]
  | y :: ys => if x ≤ y then x :: y :: ys else y :: insertSorted x ys

/-- Insertion sort on naturals.  It models the qsort call in do_set_distance:
the comparator _compare returns the unsigned difference of the two samples
cast to int, which orders naturals correctly whenever they differ by less
than 2^31; distance samples are bounded by 2^32 * 10 / 583 < 2^31, so the
sorted permutation produced by qsort is the unique sorted arrangement. -/
def sortList : List Nat → List Nat
  | [] => []
  | x :: xs => insertSorted x (sortList xs)

/-- Elapsed-microseconds-to-distance computation performed by
do_set_distance in fsm_ultrasound.c on one capture triple: 16-bit-wrap
correction of the tick difference, conditional overflow discount, overflow
accumulation at 65536 ticks per overflow, and the 58.3 us/cm division,
all in unsigned 32-bit arithmetic (the intermediate product runs in
uint64_t and is cast back to uint32_t). -/
def raw_distance (init_tick end_tick overflows : Nat) : Nat :=
  let ticks_elapsed :=
    if init_tick ≤ end_tick then end_tick - init_tick
    else u32_add (u32_sub 65536 init_tick) end_tick
  let ov :=
    if init_tick ≤ end_tick then overflows
    else if 0 < overflows then overflows - 1 else overflows
  let total := u32_add ticks_elapsed ((ov * 65536) % M32)
  (total * 10 / 583) % M32

/-- do_set_distance from fsm_ultrasound.c: consume the capture triple held
by the port, store the raw distance in the ring, and on the fifth sample
sort the ring in place, publish the median and pulse new_measurement;
finally stop the echo timer and clear the capture state. -/
def do_set_distance (f : fsm_ultrasound_t) (p : PortUltrasound) :
    fsm_ultrasound_t × PortUltrasound :=
  let distance := raw_distance p.echo_init_tick p.echo_end_tick p.echo_overflows
  let arr1 := f.distance_arr.set f.distance_idx distance
  let idx1 := f.distance_idx + 1
  let f1 :=
    if FSM_ULTRASOUND_NUM_MEASUREMENTS ≤ idx1 then
      let sorted := sortList arr1
      let dcm :=
        if FSM_ULTRASOUND_NUM_MEASUREMENTS % 2 = 0 then
          let mid := FSM_ULTRASOUND_NUM_MEASUREMENTS / 2
          u32_add (sorted.getD (mid - 1) 0) (sorted.getD mid 0) / 2
        else
          sorted.getD (FSM_ULTRASOUND_NUM_MEASUREMENTS / 2) 0
      { f with distance_arr := sorted, distance_idx := 0,
               distance_cm := dcm, new_measurement := true }
    else
      { f with distance_arr := arr1, distance_idx := idx1 }
  (f1, port_ultrasound_reset_echo_ticks (port_ultrasound_stop_echo_timer p))

/-- fsm_ultrasound_start from fsm_ultrasound.c. -/
def fsm_ultrasound_start (f : fsm_ultrasound_t) (p : PortUltrasound) :
    fsm_ultrasound_t × PortUltrasound :=
  let f1 := { f with status := true, distance_idx := 0, distance_cm := 0 }
  let p1 := port_ultrasound_start_new_measurement_timer
    (port_ultrasound_set_trigger_ready (port_ultrasound_reset_echo_ticks p) true)
  (f1, p1)

/-- fsm_ultrasound_stop from fsm_ultrasound.c. -/
def fsm_ultrasound_stop (f : fsm_ultrasound_t) (p : PortUltrasound) :
    fsm_ultrasound_t × PortUltrasound :=
  ({ f with status := false }, port_ultrasound_stop_ultrasound p)

/-- fsm_ultrasound_get_distance from fsm_ultrasound.c: reading the distance
clears the new_measurement flag. -/
def fsm_ultrasound_get_distance (f : fsm_ultrasound_t) : Nat × fsm_ultrasound_t :=
  (f.distance_cm, { f with new_measurement := false })

/-- fsm_ultrasound_get_new_measurement_ready from fsm_ultrasound.c. -/
def fsm_ultrasound_get_new_measurement_ready (f : fsm_ultrasound_t) : Bool :=
  f.new_measurement

/-- fsm_ultrasound_check_activity from fsm_ultrasound.c: constant false. -/
def fsm_ultrasound_check_activity (_ : fsm_ultrasound_t) : Bool :=
  false

/-- Elapsed microseconds of a capture triple as the claim words it:
end_tick - init_tick plus 65536 per overflow when no wrap occurred,
and (65536 - init_tick) + end_tick plus 65536 per overflow beyond the
one attributed to the wrap otherwise.  This definition follows the
claim text, to be compared against raw_distance. -/
def spec_elapsed (init_tick end_tick overflows : Nat) : Nat :=
  if init_tick ≤ end_tick then (end_tick - init_tick) + overflows * 65536
  else ((65536 - init_tick) + end_tick) + (overflows - 1) * 65536

/-- Median of five values: middle element of the sorted arrangement. -/
def median5 (a b c d e : Nat) : Nat :=
  (sortList [a, b, c, d, e]).getD 2 0

/-!
Display FSM, from fsm_display.c / fsm_display.h.
-/

/-- RGB triple; each channel is a uint8_t (0..255) in the C sources. -/
structure rgb_color_t where
  r : Nat
  g : Nat
  b : Nat
deriving Repr, DecidableEq

/-- Modelled from the spec: the colour constants COLOR_RED .. COLOR_OFF live
in port_display.h, which is absent from the sources; the spec names the
endpoint colours of each range but does not fix their RGB values, so the
colour computation is parameterised by the palette. -/
structure DisplayPalette where
  red : rgb_color_t
  yellow : rgb_color_t
  green : rgb_color_t
  turquoise : rgb_color_t
  blue : rgb_color_t
  off : rgb_color_t

/-- _interpolate_color from fsm_display.c.  The C body casts the uint8_t
operands to uint16_t and then computes in int, so for uint8_t channels and
t the intermediate values (at most 255 * 255) never wrap; the quotient is
at most max of the two channels, so the store into the uint8_t output
field never truncates either. -/
def _interpolate_color (colour_1 colour_2 : rgb_color_t) (t : Nat) : rgb_color_t :=
  { r := ((255 - t) * colour_1.r + t * colour_2.r) / 255,
    g := ((255 - t) * colour_1.g + t * colour_2.g) / 255,
    b := ((255 - t) * colour_1.b + t * colour_2.b) / 255 }

/-- _compute_display_levels from fsm_display.c: range selection on the
signed distance and linear interpolation towards the end colour of the
range.  In each branch the C code casts (distance_cm - low) to uint8_t
(reduction mod 256 of a nonnegative in-branch value) and stores the
interpolation parameter into a uint8_t (a second mod 256). -/
def _compute_display_levels (pal : DisplayPalette) (distance_cm : Int) : rgb_color_t :=
  if (DANGER_MIN_CM : Int) ≤ distance_cm ∧ distance_cm ≤ (WARNING_MIN_CM : Int) then
    let t := ((distance_cm - (DANGER_MIN_CM : Int)).toNat % 256) * 255
      / (WARNING_MIN_CM - DANGER_MIN_CM) % 256
    _interpolate_color pal.red pal.yellow t
  else if (WARNING_MIN_CM : Int) < distance_cm ∧ distance_cm ≤ (NO_PROBLEM_MIN_CM : Int) then
    let t := ((distance_cm - (WARNING_MIN_CM : Int)).toNat % 256) * 255
      / (NO_PROBLEM_MIN_CM - WARNING_MIN_CM) % 256
    _interpolate_color pal.yellow pal.green t
  else if (NO_PROBLEM_MIN_CM : Int) < distance_cm ∧ distance_cm ≤ (INFO_MIN_CM : Int) then
    let t := ((distance_cm - (NO_PROBLEM_MIN_CM : Int)).toNat % 256) * 255
      / (INFO_MIN_CM - NO_PROBLEM_MIN_CM) % 256
    _interpolate_color pal.green pal.turquoise t
  else if (INFO_MIN_CM : Int) < distance_cm ∧ distance_cm ≤ (OK_MIN_CM : Int) then
    let t := ((distance_cm - (INFO_MIN_CM : Int)).toNat % 256) * 255
      / (OK_MIN_CM - INFO_MIN_CM) % 256
    _interpolate_color pal.turquoise pal.blue t
  else if (OK_MIN_CM : Int) < distance_cm ∧ distance_cm ≤ (OK_MAX_CM : Int) then
    pal.blue
  else
    pal.off

/-- Software state of the display FSM, from struct fsm_display_t in
fsm_display.c (the embedded generic fsm_t contributes current_state). -/
structure fsm_display_t where
  current_state : Nat
  distance_cm : Int
  new_color : Bool
  status : Bool
  idle : Bool
deriving Repr, DecidableEq

/-- fsm_display_set_distance from fsm_display.c.  The uint32_t argument is
stored into the int32_t field; every distance the master forwards
(a raw sample below 2^32 * 10 / 583, or the emergency constants 0 and 500)
is far below 2^31, so the conversion is value-preserving. -/
def fsm_display_set_distance (f : fsm_display_t) (distance_cm : Nat) : fsm_display_t :=
  { f with distance_cm := (distance_cm : Int), new_color := true }

/-- fsm_display_set_status from fsm_display.c. -/
def fsm_display_set_status (f : fsm_display_t) (pause : Bool) : fsm_display_t :=
  { f with status := pause }

/-- fsm_display_check_activity from fsm_display.c. -/
def fsm_display_check_activity (f : fsm_display_t) : Bool :=
  f.status && !f.idle

/-!
Button FSM observations the master consumes.
-/

/-- Modelled from the spec: fsm_button.c is absent from the sources.  The
master reads only the recorded press duration and the activity predicate;
per spec 4.2 check_activity() returns true whenever the button FSM state
differs from RELEASED, abstracted here as the active flag. -/
structure fsm_button_t where
  duration_ms : Nat
  active : Bool
deriving Repr, DecidableEq

/-- Modelled from the spec: fsm_button_get_duration returns the duration of
the last classified press. -/
def fsm_button_get_duration (b : fsm_button_t) : Nat :=
  b.duration_ms

/-- Modelled from the spec: reset_duration() sets the duration back to zero. -/
def fsm_button_reset_duration (b : fsm_button_t) : fsm_button_t :=
  { b with duration_ms := 0 }

/-- Modelled from the spec: check_activity() returns true whenever the
button FSM state differs from RELEASED. -/
def fsm_button_check_activity (b : fsm_button_t) : Bool :=
  b.active

/-!
Urbanite master FSM, from fsm_urbanite.c / fsm_urbanite.h.
-/

/-- Urbanite state OFF (enum FSM_URBANITE). -/
def OFF : Nat := 0

/-- Urbanite state MEASURE (enum FSM_URBANITE). -/
def MEASURE : Nat := 1

/-- Urbanite state SLEEP_WHILE_OFF (enum FSM_URBANITE). -/
def SLEEP_WHILE_OFF : Nat := 2

/-- Urbanite state SLEEP_WHILE_ON (enum FSM_URBANITE). -/
def SLEEP_WHILE_ON : Nat := 3

/-- Urbanite state EMERGENCY (enum FSM_URBANITE). -/
def EMERGENCY : Nat := 4

/-- Control fields of struct fsm_urbanite_t in fsm_urbanite.c (the embedded
generic fsm_t contributes current_state; the three leaf pointers become the
leaf components of UrbaniteSys). -/
structure fsm_urbanite_t where
  current_state : Nat
  on_off_press_time_ms : Nat
  pause_display_time_ms : Nat
  emergency_time_ms : Nat
  is_paused : Bool
  emergency_aux : Bool
  emergency : Bool
deriving Repr, DecidableEq

/-- The master together with the leaf state it owns: button, rear
ultrasound (FSM and hardware mirror) and rear display. -/
structure UrbaniteSys where
  urb : fsm_urbanite_t
  button : fsm_button_t
  ultra : fsm_ultrasound_t
  ultra_port : PortUltrasound
  display : fsm_display_t

/-- check_on from fsm_urbanite.c. -/
def check_on (s : UrbaniteSys) : Bool :=
  let duration := fsm_button_get_duration s.button
  decide (0 < duration) && decide (s.urb.on_off_press_time_ms < duration)

/-- check_off from fsm_urbanite.c. -/
def check_off (s : UrbaniteSys) : Bool :=
  let duration := fsm_button_get_duration s.button
  decide (0 < duration) && decide (s.urb.on_off_press_time_ms < duration)
    && decide (duration < s.urb.emergency_time_ms)

/-- check_emergency_on from fsm_urbanite.c. -/
def check_emergency_on (s : UrbaniteSys) : Bool :=
  let duration := fsm_button_get_duration s.button
  decide (0 < duration) && decide (s.urb.emergency_time_ms < duration)

/-- check_emergency_continue from fsm_urbanite.c. -/
def check_emergency_continue (s : UrbaniteSys) : Bool :=
  s.urb.emergency

/-- check_emergency_off from fsm_urbanite.c. -/
def check_emergency_off (s : UrbaniteSys) : Bool :=
  let duration := fsm_button_get_duration s.button
  decide (0 < duration) && decide (s.urb.emergency_time_ms < duration)

/-- check_new_measure from fsm_urbanite.c. -/
def check_new_measure (s : UrbaniteSys) : Bool :=
  fsm_ultrasound_get_new_measurement_ready s.ultra

/-- check_pause_display from fsm_urbanite.c. -/
def check_pause_display (s : UrbaniteSys) : Bool :=
  let duration := fsm_button_get_duration s.button
  decide (0 < duration) && decide (duration < s.urb.on_off_press_time_ms)
    && decide (s.urb.pause_display_time_ms ≤ duration)

/-- check_activity from fsm_urbanite.c. -/
def check_activity (s : UrbaniteSys) : Bool :=
  fsm_ultrasound_check_activity s.ultra
    || fsm_display_check_activity s.display
    || fsm_button_check_activity s.button

/-- check_no_activity from fsm_urbanite.c. -/
def check_no_activity (s : UrbaniteSys) : Bool :=
  !check_activity s

/-- check_activity_in_measure from fsm_urbanite.c. -/
def check_activity_in_measure (s : UrbaniteSys) : Bool :=
  check_new_measure s

/-- do_start_up_measure from fsm_urbanite.c. -/
def do_start_up_measure (s : UrbaniteSys) : UrbaniteSys :=
  let b := fsm_button_reset_duration s.button
  let up := fsm_ultrasound_start s.ultra s.ultra_port
  let d := fsm_display_set_status s.display true
  { s with button := b, ultra := up.1, ultra_port := up.2, display := d }

/-- do_stop_urbanite from fsm_urbanite.c. -/
def do_stop_urbanite (s : UrbaniteSys) : UrbaniteSys :=
  let b := fsm_button_reset_duration s.button
  let up := fsm_ultrasound_stop s.ultra s.ultra_port
  let d := fsm_display_set_status s.display false
  { s with button := b, ultra := up.1, ultra_port := up.2, display := d,
           urb := { s.urb with is_paused := false } }

/-- do_pause_display from fsm_urbanite.c. -/
def do_pause_display (s : UrbaniteSys) : UrbaniteSys :=
  let b := fsm_button_reset_duration s.button
  let paused := !s.urb.is_paused
  let d := fsm_display_set_status s.display (!paused)
  { s with button := b, display := d, urb := { s.urb with is_paused := paused } }

/-- do_display_distance from fsm_urbanite.c: consume the sample (which
clears new_measurement), then, when paused, alert only below
WARNING_MIN_CM / 2 and silence the display otherwise; when not paused,
forward every sample. -/
def do_display_distance (s : UrbaniteSys) : UrbaniteSys :=
  let du := fsm_ultrasound_get_distance s.ultra
  let distance_cm := du.1
  let s1 := { s with ultra := du.2 }
  if s1.urb.is_paused then
    if distance_cm < WARNING_MIN_CM / 2 then
      { s1 with display :=
          fsm_display_set_status (fsm_display_set_distance s1.display distance_cm) true }
    else
      { s1 with display := fsm_display_set_status s1.display false }
  else
    { s1 with display := fsm_display_set_distance s1.display distance_cm }

/-- do_start_emergency from fsm_urbanite.c. -/
def do_start_emergency (s : UrbaniteSys) : UrbaniteSys :=
  let b := fsm_button_reset_duration s.button
  let d := fsm_display_set_status s.display true
  let up := fsm_ultrasound_stop s.ultra s.ultra_port
  { s with button := b, display := d, ultra := up.1, ultra_port := up.2,
           urb := { s.urb with emergency_aux := true, emergency := true } }

/-- do_stop_emergency from fsm_urbanite.c. -/
def do_stop_emergency (s : UrbaniteSys) : UrbaniteSys :=
  let b := fsm_button_reset_duration s.button
  let up := fsm_ultrasound_start s.ultra s.ultra_port
  let d := if s.urb.is_paused then fsm_display_set_status s.display false else s.display
  { s with button := b, ultra := up.1, ultra_port := up.2, display := d,
           urb := { s.urb with emergency_aux := false, emergency := false } }

/-- do_continue_emergency from fsm_urbanite.c: alternate the displayed
distance between 0 and 500, toggling the phase flag (the busy wait
port_system_delay_ms has no effect on the modelled state). -/
def do_continue_emergency (s : UrbaniteSys) : UrbaniteSys :=
  if s.urb.emergency_aux then
    { s with display := fsm_display_set_distance s.display 0,
             urb := { s.urb with emergency_aux := false } }
  else
    { s with display := fsm_display_set_distance s.display 500,
             urb := { s.urb with emergency_aux := true } }

/-- Sleep actions do_sleep_off / do_sleep_while_off / do_sleep_while_on /
do_sleep_while_measure from fsm_urbanite.c: port_system_sleep halts the
core until an interrupt and leaves the modelled state untouched. -/
def do_sleep (s : UrbaniteSys) : UrbaniteSys :=
  s

/-- One row of a transition table (fsm_trans_t of the generic runtime):
origin state, guard, destination state, optional action. -/
structure UrbTrans where
  orig_state : Nat
  guard : UrbaniteSys → Bool
  dest_state : Nat
  action : Option (UrbaniteSys → UrbaniteSys)

/-- fsm_trans_urbanite from fsm_urbanite.c, in source order. -/
def fsm_trans_urbanite : List UrbTrans :=
  [⟨OFF, check_no_activity, SLEEP_WHILE_OFF, some do_sleep⟩,
   ⟨SLEEP_WHILE_OFF, check_activity, OFF, none⟩,
   ⟨SLEEP_WHILE_OFF, check_no_activity, SLEEP_WHILE_OFF, some do_sleep⟩,
   ⟨OFF, check_on, MEASURE, some do_start_up_measure⟩,
   ⟨MEASURE, check_pause_display, MEASURE, some do_pause_display⟩,
   ⟨MEASURE, check_new_measure, MEASURE, some do_display_distance⟩,
   ⟨MEASURE, check_no_activity, SLEEP_WHILE_ON, some do_sleep⟩,
   ⟨SLEEP_WHILE_ON, check_activity_in_measure, MEASURE, none⟩,
   ⟨SLEEP_WHILE_ON, check_no_activity, SLEEP_WHILE_ON, some do_sleep⟩,
   ⟨MEASURE, check_emergency_on, EMERGENCY, some do_start_emergency⟩,
   ⟨EMERGENCY, check_emergency_off, MEASURE, some do_stop_emergency⟩,
   ⟨EMERGENCY, check_emergency_continue, EMERGENCY, some do_continue_emergency⟩,
   ⟨MEASURE, check_off, OFF, some do_stop_urbanite⟩]

/-- Modelled from the spec: the generic FSM runtime fsm.c is absent from
the sources.  Per spec 4.1, fire scans the table top to bottom; the first
row whose origin equals the current state and whose guard holds wins, its
action (if present) runs, and the current state becomes the row's
destination. -/
def fsm_fire_scan : List UrbTrans → UrbaniteSys → UrbaniteSys
  | [], s => s
  | t :: ts, s =>
    if t.orig_state = s.urb.current_state ∧ t.guard s = true then
      let s1 := match t.action with
        | some a => a s
        | none => s
      { s1 with urb := { s1.urb with current_state := t.dest_state } }
    else
      fsm_fire_scan ts s

/-- fsm_urbanite_fire from fsm_urbanite.c: one firing of the master table. -/
def fsm_urbanite_fire (s : UrbaniteSys) : UrbaniteSys :=
  fsm_fire_scan fsm_trans_urbanite s

/-!
Concrete fixtures used by counterexample and witness theorems.
-/

/-- A port state that has just completed the echo capture of scenario 2 of
the spec: init_tick = 100, end_tick = 1091, overflows = 0, echo received. -/
def scenario2_port : PortUltrasound :=
  ⟨false, false, true, 100, 1091, 0, true, false, true⟩

/-- An ultrasound FSM about to store the first sample of a window. -/
def scenario2_fsm : fsm_ultrasound_t :=
  ⟨3, 0, true, false, [0, 0, 0, 0, 0], 0⟩

/-- An idle port mirror. -/
def idle_port : PortUltrasound :=
  ⟨false, false, false, 0, 0, 0, false, false, false⟩

/-- A freshly initialised ultrasound FSM (fsm_ultrasound_init values). -/
def init_ultra : fsm_ultrasound_t :=
  ⟨0, 0, false, false, [0, 0, 0, 0, 0], 0⟩

/-- A freshly initialised display FSM (fsm_display_init values). -/
def init_display : fsm_display_t :=
  ⟨0, -1, false, false, false⟩

/-- Urbanite system in state OFF with the production thresholds
(1000 / 250 / 3000 ms from main.c), the button active (mid-press, so a leaf
reports activity) and a recorded press duration of dur ms. -/
def off_sys (dur : Nat) : UrbaniteSys :=
  ⟨⟨OFF, 1000, 250, 3000, false, false, false⟩, ⟨dur, true⟩,
   init_ultra, idle_port, init_display⟩

/-- Urbanite system in state MEASURE with the production thresholds, the
display enabled (a leaf reports activity), no pending sample, and a
recorded press duration of dur ms. -/
def measure_sys (dur : Nat) : UrbaniteSys :=
  ⟨⟨MEASURE, 1000, 250, 3000, false, false, false⟩, ⟨dur, false⟩,
   { init_ultra with status := true }, idle_port,
   { init_display with status := true }⟩

/-- Urbanite system in state EMERGENCY with the production thresholds and a
recorded press duration of dur ms. -/
def emergency_sys (dur : Nat) : UrbaniteSys :=
  ⟨⟨EMERGENCY, 1000, 250, 3000, false, true, true⟩, ⟨dur, false⟩,
   init_ultra, idle_port, { init_display with status := true }⟩

/-- Urbanite system sleeping in SLEEP_WHILE_ON while the button is active
(a leaf reports activity) but no new measurement is pending. -/
def sleep_on_sys : UrbaniteSys :=
  ⟨⟨SLEEP_WHILE_ON, 1000, 250, 3000, false, false, false⟩, ⟨0, true⟩,
   { init_ultra with status := true }, idle_port, init_display⟩

/-- Urbanite system sleeping in SLEEP_WHILE_OFF while the button is active. -/
def sleep_off_sys : UrbaniteSys :=
  ⟨⟨SLEEP_WHILE_OFF, 1000, 250, 3000, false, false, false⟩, ⟨0, true⟩,
   init_ultra, idle_port, init_display⟩

/-- Urbanite system sleeping in SLEEP_WHILE_ON with a new measurement
pending. -/
def sleep_on_ready_sys : UrbaniteSys :=
  ⟨⟨SLEEP_WHILE_ON, 1000, 250, 3000, false, false, false⟩, ⟨0, false⟩,
   { init_ultra with status := true, new_measurement := true }, idle_port,
   init_display⟩

/-- Urbanite system in MEASURE, paused, with a pending 5 cm sample. -/
def paused_sample_sys : UrbaniteSys :=
  ⟨⟨MEASURE, 1000, 250, 3000, true, false, false⟩, ⟨0, false⟩,
   { init_ultra with status := true, new_measurement := true, distance_cm := 5 },
   idle_port, init_display⟩

/-- Replace the current state of the master, as the generic runtime does
after a row fires. -/
def setUrbState (s : UrbaniteSys) (st : Nat) : UrbaniteSys :=
  { s with urb := { s.urb with current_state := st } }

/-!
Helper lemmas: one-row characterisations of a firing of the master table
from each state, obtained by scanning fsm_trans_urbanite in source order.
-/

theorem fire_from_OFF (s : UrbaniteSys) (h : s.urb.current_state = OFF) :
    fsm_urbanite_fire s =
      if check_no_activity s = true then setUrbState (do_sleep s) SLEEP_WHILE_OFF
      else if check_on s = true then setUrbState (do_start_up_measure s) MEASURE
      else s := by
  simp only [fsm_urbanite_fire, fsm_trans_urbanite, fsm_fire_scan, h, setUrbState,
    OFF, MEASURE, SLEEP_WHILE_OFF, SLEEP_WHILE_ON, EMERGENCY]
  norm_num

theorem fire_from_MEASURE (s : UrbaniteSys) (h : s.urb.current_state = MEASURE) :
    fsm_urbanite_fire s =
      if check_pause_display s = true then setUrbState (do_pause_display s) MEASURE
      else if check_new_measure s = true then setUrbState (do_display_distance s) MEASURE
      else if check_no_activity s = true then setUrbState (do_sleep s) SLEEP_WHILE_ON
      else if check_emergency_on s = true then setUrbState (do_start_emergency s) EMERGENCY
      else if check_off s = true then setUrbState (do_stop_urbanite s) OFF
      else s := by
  simp only [fsm_urbanite_fire, fsm_trans_urbanite, fsm_fire_scan, h, setUrbState,
    OFF, MEASURE, SLEEP_WHILE_OFF, SLEEP_WHILE_ON, EMERGENCY]
  norm_num

theorem fire_from_SLEEP_WHILE_OFF (s : UrbaniteSys)
    (h : s.urb.current_state = SLEEP_WHILE_OFF) :
    fsm_urbanite_fire s =
      if check_activity s = true then setUrbState s OFF
      else if check_no_activity s = true then setUrbState (do_sleep s) SLEEP_WHILE_OFF
      else s := by
  simp only [fsm_urbanite_fire, fsm_trans_urbanite, fsm_fire_scan, h, setUrbState,
    OFF, MEASURE, SLEEP_WHILE_OFF, SLEEP_WHILE_ON, EMERGENCY]
  norm_num

theorem fire_from_SLEEP_WHILE_ON (s : UrbaniteSys)
    (h : s.urb.current_state = SLEEP_WHILE_ON) :
    fsm_urbanite_fire s =
      if check_activity_in_measure s = true then setUrbState s MEASURE
      else if check_no_activity s = true then setUrbState (do_sleep s) SLEEP_WHILE_ON
      else s := by
  simp only [fsm_urbanite_fire, fsm_trans_urbanite, fsm_fire_scan, h, setUrbState,
    OFF, MEASURE, SLEEP_WHILE_OFF, SLEEP_WHILE_ON, EMERGENCY]
  norm_num

theorem fire_from_EMERGENCY (s : UrbaniteSys)
    (h : s.urb.current_state = EMERGENCY) :
    fsm_urbanite_fire s =
      if check_emergency_off s = true then setUrbState (do_stop_emergency s) MEASURE
      else if check_emergency_continue s = true then
        setUrbState (do_continue_emergency s) EMERGENCY
      else s := by
  simp only [fsm_urbanite_fire, fsm_trans_urbanite, fsm_fire_scan, h, setUrbState,
    OFF, MEASURE, SLEEP_WHILE_OFF, SLEEP_WHILE_ON, EMERGENCY]
  norm_num

/-!
Claim theorems.
-/

/-- C8 counterexample: for the capture init_tick = 100, end_tick = 1091,
overflows = 0 (991 us elapsed), the raw distance do_set_distance stores is
not 17: the code computes 991 * 10 / 583 = 16 in integer arithmetic. -/
theorem claim_C8_counterexample :
    ((do_set_distance scenario2_fsm scenario2_port).1.distance_arr.getD 0 0) ≠ 17 := by
  decide

/-- C8 amended: for the capture init_tick = 100, end_tick = 1091,
overflows = 0 (991 us elapsed), the raw distance computed and stored by
do_set_distance equals 16 cm (floor of 9910 / 583). -/
theorem claim_C8_distance_16 :
    ((do_set_distance scenario2_fsm scenario2_port).1.distance_arr.getD 0 0) = 16 ∧
    raw_distance 100 1091 0 = 16 := by
  decide

/-- C9: from every prior ultrasound FSM state and port state, a call to
fsm_ultrasound_start empties the sample window (ring index and published
distance reset to 0, stored array untouched and overwritten before reuse),
enables the sensor, clears the capture mirror, marks the port trigger
ready and enables the cycle (new-measurement) timer, leaving the FSM state
and the remaining fields unchanged. -/
theorem claim_C9_ultrasound_start (f : fsm_ultrasound_t) (p : PortUltrasound) :
    (fsm_ultrasound_start f p).1.status = true ∧
    (fsm_ultrasound_start f p).1.distance_idx = 0 ∧
    (fsm_ultrasound_start f p).1.distance_cm = 0 ∧
    (fsm_ultrasound_start f p).1.distance_arr = f.distance_arr ∧
    (fsm_ultrasound_start f p).1.current_state = f.current_state ∧
    (fsm_ultrasound_start f p).1.new_measurement = f.new_measurement ∧
    (fsm_ultrasound_start f p).2.trigger_ready = true ∧
    (fsm_ultrasound_start f p).2.cycle_timer_on = true ∧
    (fsm_ultrasound_start f p).2.echo_received = false ∧
    (fsm_ultrasound_start f p).2.echo_init_tick = 0 ∧
    (fsm_ultrasound_start f p).2.echo_end_tick = 0 ∧
    (fsm_ultrasound_start f p).2.echo_overflows = 0 ∧
    (fsm_ultrasound_start f p).2.trigger_end = p.trigger_end := by
  refine ⟨rfl, rfl, rfl, rfl, rfl, rfl, rfl, rfl, rfl, rfl, rfl, rfl, rfl⟩

theorem interp_channel_le_max (a b t : Nat) (ht : t ≤ 255) :
    ((255 - t) * a + t * b) / 255 ≤ max a b := by
  have h1 : (255 - t) * a ≤ (255 - t) * max a b :=
    Nat.mul_le_mul_left _ (le_max_left a b)
  have h2 : t * b ≤ t * max a b :=
    Nat.mul_le_mul_left _ (le_max_right a b)
  have h3 : (255 - t) * max a b + t * max a b = max a b * 255 := by
    rw [← Nat.add_mul]
    have h4 : 255 - t + t = 255 := by omega
    rw [h4, Nat.mul_comm]
  calc ((255 - t) * a + t * b) / 255 ≤ (max a b * 255) / 255 := by
        apply Nat.div_le_div_right
        omega
    _ = max a b := Nat.mul_div_cancel _ (by norm_num)

theorem interp_min_le_channel (a b t : Nat) (ht : t ≤ 255) :
    min a b ≤ ((255 - t) * a + t * b) / 255 := by
  have h1 : (255 - t) * min a b ≤ (255 - t) * a :=
    Nat.mul_le_mul_left _ (min_le_left a b)
  have h2 : t * min a b ≤ t * b :=
    Nat.mul_le_mul_left _ (min_le_right a b)
  have h3 : (255 - t) * min a b + t * min a b = min a b * 255 := by
    rw [← Nat.add_mul]
    have h4 : 255 - t + t = 255 := by omega
    rw [h4, Nat.mul_comm]
  refine (Nat.le_div_iff_mul_le (by norm_num)).2 ?_
  omega

/-- C10: linear RGB interpolation returns exactly the first colour at
t = 0 and exactly the second colour at t = 255, and for every t in
[0, 255] each output channel lies between the minimum and the maximum of
the corresponding endpoint channels. -/
theorem claim_C10_interpolation (c1 c2 : rgb_color_t) (t : Nat) (ht : t ≤ 255) :
    _interpolate_color c1 c2 0 = c1 ∧
    _interpolate_color c1 c2 255 = c2 ∧
    min c1.r c2.r ≤ (_interpolate_color c1 c2 t).r ∧
    (_interpolate_color c1 c2 t).r ≤ max c1.r c2.r ∧
    min c1.g c2.g ≤ (_interpolate_color c1 c2 t).g ∧
    (_interpolate_color c1 c2 t).g ≤ max c1.g c2.g ∧
    min c1.b c2.b ≤ (_interpolate_color c1 c2 t).b ∧
    (_interpolate_color c1 c2 t).b ≤ max c1.b c2.b := by
  obtain ⟨r1, g1, b1⟩ := c1
  obtain ⟨r2, g2, b2⟩ := c2
  refine ⟨?_, ?_, ?_, ?_, ?_, ?_, ?_, ?_⟩
  · simp [_interpolate_color, Nat.mul_div_cancel_left]
  · simp [_interpolate_color, Nat.mul_div_cancel_left]
  · exact interp_min_le_channel r1 r2 t ht
  · exact interp_channel_le_max r1 r2 t ht
  · exact interp_min_le_channel g1 g2 t ht
  · exact interp_channel_le_max g1 g2 t ht
  · exact interp_min_le_channel b1 b2 t ht
  · exact interp_channel_le_max b1 b2 t ht

/-- C10 witness: instantiation at the concrete colours (200, 16, 0) and
(10, 250, 3) with t = 100. -/
theorem claim_C10_interpolation_witness :
    (100 : Nat) ≤ 255 ∧
    (_interpolate_color ⟨200, 16, 0⟩ ⟨10, 250, 3⟩ 0 = ⟨200, 16, 0⟩ ∧
     _interpolate_color ⟨200, 16, 0⟩ ⟨10, 250, 3⟩ 255 = ⟨10, 250, 3⟩ ∧
     min 200 10 ≤ (_interpolate_color ⟨200, 16, 0⟩ ⟨10, 250, 3⟩ 100).r ∧
     (_interpolate_color ⟨200, 16, 0⟩ ⟨10, 250, 3⟩ 100).r ≤ max 200 10 ∧
     min 16 250 ≤ (_interpolate_color ⟨200, 16, 0⟩ ⟨10, 250, 3⟩ 100).g ∧
     (_interpolate_color ⟨200, 16, 0⟩ ⟨10, 250, 3⟩ 100).g ≤ max 16 250 ∧
     min 0 3 ≤ (_interpolate_color ⟨200, 16, 0⟩ ⟨10, 250, 3⟩ 100).b ∧
     (_interpolate_color ⟨200, 16, 0⟩ ⟨10, 250, 3⟩ 100).b ≤ max 0 3) :=
  ⟨by decide, claim_C10_interpolation ⟨200, 16, 0⟩ ⟨10, 250, 3⟩ 100 (by decide)⟩

/-- C7: at the exact range boundaries the computed colour is the endpoint
colour of the preceding range: RED at 0, YELLOW at 25, GREEN at 50,
TURQUOISE at 150 and BLUE at 175, for every palette. -/
theorem claim_C7_boundary_colours (pal : DisplayPalette) :
    _compute_display_levels pal 0 = pal.red ∧
    _compute_display_levels pal 25 = pal.yellow ∧
    _compute_display_levels pal 50 = pal.green ∧
    _compute_display_levels pal 150 = pal.turquoise ∧
    _compute_display_levels pal 175 = pal.blue := by
  obtain ⟨⟨rr, rg, rb⟩, ⟨yr, yg, yb⟩, ⟨gr, gg, gb⟩, ⟨tr, tg, tb⟩, ⟨br, bg, bb⟩, o⟩ := pal
  refine ⟨?_, ?_, ?_, ?_, ?_⟩ <;>
    simp [_compute_display_levels, _interpolate_color, DANGER_MIN_CM, WARNING_MIN_CM,
      NO_PROBLEM_MIN_CM, INFO_MIN_CM, OK_MIN_CM, OK_MAX_CM, Nat.mul_div_cancel_left]

/-- C5: after do_display_distance runs with the system paused, the display
status flag is true exactly when the consumed sample is below
WARNING_MIN_CM / 2 = 12 cm, and the sample is forwarded to the display FSM
(distance stored, new_color raised) only in that case; without pause every
sample is forwarded unconditionally and the status flag is untouched. -/
theorem claim_C5_pause_alert (s : UrbaniteSys) :
    (s.urb.is_paused = true →
      (((do_display_distance s).display.status = true) ↔
        s.ultra.distance_cm < WARNING_MIN_CM / 2) ∧
      (s.ultra.distance_cm < WARNING_MIN_CM / 2 →
        (do_display_distance s).display.distance_cm = (s.ultra.distance_cm : Int) ∧
        (do_display_distance s).display.new_color = true) ∧
      (¬ s.ultra.distance_cm < WARNING_MIN_CM / 2 →
        (do_display_distance s).display.distance_cm = s.display.distance_cm ∧
        (do_display_distance s).display.new_color = s.display.new_color)) ∧
    (s.urb.is_paused = false →
      (do_display_distance s).display.distance_cm = (s.ultra.distance_cm : Int) ∧
      (do_display_distance s).display.new_color = true ∧
      (do_display_distance s).display.status = s.display.status) ∧
    WARNING_MIN_CM / 2 = 12 := by
  by_cases hp : s.urb.is_paused = true
  · by_cases hd : s.ultra.distance_cm < WARNING_MIN_CM / 2
    · refine ⟨fun _ => ⟨?_, fun _ => ?_, fun hc => absurd hd hc⟩,
        fun hf => absurd hp (by simp [hf]), by decide⟩ <;>
        simp [do_display_distance, fsm_ultrasound_get_distance,
          fsm_display_set_distance, fsm_display_set_status, hp, hd]
    · refine ⟨fun _ => ⟨?_, fun hc => absurd hc hd, fun _ => ?_⟩,
        fun hf => absurd hp (by simp [hf]), by decide⟩ <;>
        simp [do_display_distance, fsm_ultrasound_get_distance,
          fsm_display_set_distance, fsm_display_set_status, hp, hd]
  · have hp' : s.urb.is_paused = false := by
      cases h : s.urb.is_paused
      · rfl
      · exact absurd h hp
    refine ⟨fun hc => absurd hc hp, fun _ => ?_, by decide⟩
    simp [do_display_distance, fsm_ultrasound_get_distance,
      fsm_display_set_distance, fsm_display_set_status, hp']

/-- C5 witness: in the paused system with a pending 5 cm sample the display
comes back on (5 < 12). -/
theorem claim_C5_pause_alert_witness :
    paused_sample_sys.urb.is_paused = true ∧
    (do_display_distance paused_sample_sys).display.status = true :=
  ⟨rfl, ((claim_C5_pause_alert paused_sample_sys).1 rfl).1.mpr (by decide)⟩

theorem final_cast_vanishes (e : Nat) (he : e < 4294967296) :
    e * 10 / 583 % 4294967296 = e * 10 / 583 := by
  apply Nat.mod_eq_of_lt
  calc e * 10 / 583 ≤ 4294967295 * 10 / 583 := by
        apply Nat.div_le_div_right
        omega
    _ < 4294967296 := by norm_num

/-- C1: on every capture triple a completed echo can produce - ticks below
the 16-bit capture range, a bounded overflow count, and at least one
counted overflow whenever the end tick wrapped below the init tick (the
update ISR runs in the same handler as the capture, so the count is exact
for the window) - the raw distance computed by do_set_distance equals
floor(E * 10 / 583) for the total elapsed microseconds E of the claim:
E = (end_tick - init_tick) + overflows * 65536 without wrap, and
E = (65536 - init_tick) + end_tick + (overflows - 1) * 65536 with wrap. -/
theorem claim_C1_distance_formula (init_tick end_tick overflows : Nat)
    (hinit : init_tick < 65536) (hend : end_tick < 65536)
    (hov : overflows < 65536)
    (hwrap : end_tick < init_tick → 1 ≤ overflows) :
    raw_distance init_tick end_tick overflows =
      spec_elapsed init_tick end_tick overflows * 10 / 583 := by
  unfold raw_distance spec_elapsed u32_add u32_sub M32
  have hovmul : overflows * 65536 ≤ 65535 * 65536 :=
    Nat.mul_le_mul_right _ (by omega)
  by_cases h : init_tick ≤ end_tick
  · simp only [if_pos h]
    rw [Nat.mod_eq_of_lt (a := overflows * 65536) (by omega),
      Nat.mod_eq_of_lt (a := end_tick - init_tick + overflows * 65536) (by omega)]
    exact final_cast_vanishes _ (by omega)
  · simp only [if_neg h]
    have hwrap' : 1 ≤ overflows := hwrap (by omega)
    have hov0 : 0 < overflows := hwrap'
    simp only [if_pos hov0]
    have hovmul' : (overflows - 1) * 65536 ≤ 65534 * 65536 :=
      Nat.mul_le_mul_right _ (by omega)
    rw [Nat.mod_eq_of_lt (a := init_tick) (by omega)]
    have h1 : 65536 + 4294967296 - init_tick = (65536 - init_tick) + 4294967296 := by
      omega
    rw [h1, Nat.add_mod_right, Nat.mod_eq_of_lt (a := 65536 - init_tick) (by omega),
      Nat.mod_eq_of_lt (a := 65536 - init_tick + end_tick) (by omega),
      Nat.mod_eq_of_lt (a := (overflows - 1) * 65536) (by omega),
      Nat.mod_eq_of_lt
        (a := 65536 - init_tick + end_tick + (overflows - 1) * 65536) (by omega)]
    exact final_cast_vanishes _ (by omega)

/-- C1 witness: the wrapped capture (60000, 100, 2) with one overflow
attributed to the wrap: E = 5636 + 65536 = 71172 us. -/
theorem claim_C1_distance_formula_witness :
    (60000 : Nat) < 65536 ∧ (100 : Nat) < 65536 ∧ (2 : Nat) < 65536 ∧
    raw_distance 60000 100 2 = spec_elapsed 60000 100 2 * 10 / 583 :=
  ⟨by decide, by decide, by decide,
   claim_C1_distance_formula 60000 100 2 (by decide) (by decide) (by decide)
     (fun _ => by decide)⟩

/-- C2: starting from an empty window (index 0, ring of length 5), five
consecutive echo captures behave as one median window: the first four
leave the published distance and the new_measurement flag untouched, and
the fifth publishes the median of the five raw distances, pulses
new_measurement, and wraps the index back to 0 so a fresh window begins. -/
theorem claim_C2_median_window (f : fsm_ultrasound_t)
    (p1 p2 p3 p4 p5 : PortUltrasound)
    (hidx : f.distance_idx = 0) (hlen : f.distance_arr.length = 5) :
    ((do_set_distance f p1).1.distance_cm = f.distance_cm ∧
     (do_set_distance f p1).1.new_measurement = f.new_measurement) ∧
    (((do_set_distance (do_set_distance f p1).1 p2).1.distance_cm = f.distance_cm) ∧
     ((do_set_distance (do_set_distance f p1).1 p2).1.new_measurement =
       f.new_measurement)) ∧
    (((do_set_distance (do_set_distance (do_set_distance f p1).1 p2).1 p3).1.distance_cm
        = f.distance_cm) ∧
     ((do_set_distance (do_set_distance (do_set_distance f p1).1 p2).1
         p3).1.new_measurement = f.new_measurement)) ∧
    (((do_set_distance (do_set_distance (do_set_distance (do_set_distance f p1).1
         p2).1 p3).1 p4).1.distance_cm = f.distance_cm) ∧
     ((do_set_distance (do_set_distance (do_set_distance (do_set_distance f p1).1
         p2).1 p3).1 p4).1.new_measurement = f.new_measurement)) ∧
    ((do_set_distance (do_set_distance (do_set_distance (do_set_distance
        (do_set_distance f p1).1 p2).1 p3).1 p4).1 p5).1.distance_cm =
      median5 (raw_distance p1.echo_init_tick p1.echo_end_tick p1.echo_overflows)
        (raw_distance p2.echo_init_tick p2.echo_end_tick p2.echo_overflows)
        (raw_distance p3.echo_init_tick p3.echo_end_tick p3.echo_overflows)
        (raw_distance p4.echo_init_tick p4.echo_end_tick p4.echo_overflows)
        (raw_distance p5.echo_init_tick p5.echo_end_tick p5.echo_overflows)) ∧
    ((do_set_distance (do_set_distance (do_set_distance (do_set_distance
        (do_set_distance f p1).1 p2).1 p3).1 p4).1 p5).1.new_measurement = true) ∧
    ((do_set_distance (do_set_distance (do_set_distance (do_set_distance
        (do_set_distance f p1).1 p2).1 p3).1 p4).1 p5).1.distance_idx = 0) := by
  obtain ⟨cs, dcm, st, nm, arr, idx⟩ := f
  simp only at hidx hlen
  subst hidx
  match arr, hlen with
  | [a0, a1, a2, a3, a4], _ =>
    simp [do_set_distance, FSM_ULTRASOUND_NUM_MEASUREMENTS, median5, List.set]

/-- C2 witness: the spec's median scenario, raw distances 30, 28, 200, 29,
31 delivered as five captures with elapsed times 1750, 1633, 11661, 1692
and 1808 us; the published distance after the fifth capture is 30. -/
theorem claim_C2_median_window_witness :
    init_ultra.distance_idx = 0 ∧ init_ultra.distance_arr.length = 5 ∧
    (do_set_distance (do_set_distance (do_set_distance (do_set_distance
       (do_set_distance init_ultra ⟨false, false, true, 0, 1750, 0, true, false, true⟩).1
       ⟨false, false, true, 0, 1633, 0, true, false, true⟩).1
       ⟨false, false, true, 0, 11661, 0, true, false, true⟩).1
       ⟨false, false, true, 0, 1692, 0, true, false, true⟩).1
       ⟨false, false, true, 0, 1808, 0, true, false, true⟩).1.distance_cm = 30 := by
  refine ⟨rfl, rfl, ?_⟩
  have h := claim_C2_median_window init_ultra
    ⟨false, false, true, 0, 1750, 0, true, false, true⟩
    ⟨false, false, true, 0, 1633, 0, true, false, true⟩
    ⟨false, false, true, 0, 11661, 0, true, false, true⟩
    ⟨false, false, true, 0, 1692, 0, true, false, true⟩
    ⟨false, false, true, 0, 1808, 0, true, false, true⟩
    rfl rfl
  rw [h.2.2.2.2.1]
  decide

/-- C3 counterexample: with the production thresholds (on_off = 1000,
emergency = 3000) and an active leaf, a press of exactly 1000 ms (inside
the claim's interval [on_off_ms, emergency_ms)) does not leave OFF,
because check_on demands duration strictly greater than on_off_ms; and a
press of exactly 3000 ms (outside the claim's interval) does fire
OFF -> MEASURE, because check_on has no upper bound. -/
theorem claim_C3_counterexample :
    check_activity (off_sys 1000) = true ∧
    (off_sys 1000).urb.on_off_press_time_ms ≤ (off_sys 1000).button.duration_ms ∧
    (off_sys 1000).button.duration_ms < (off_sys 1000).urb.emergency_time_ms ∧
    (fsm_urbanite_fire (off_sys 1000)).urb.current_state ≠ MEASURE ∧
    check_activity (off_sys 3000) = true ∧
    ¬ (off_sys 3000).button.duration_ms < (off_sys 3000).urb.emergency_time_ms ∧
    (fsm_urbanite_fire (off_sys 3000)).urb.current_state = MEASURE := by
  decide

/-- C3 amended: in state OFF with at least one leaf active, firing
transitions to MEASURE - resetting the button duration, starting the
ultrasound and enabling the display - if and only if the press duration
is strictly greater than on_off_ms (with no upper bound: a press of
emergency length also powers the system on from OFF); otherwise the
firing changes nothing. -/
theorem claim_C3_power_on_amended (s : UrbaniteSys)
    (hstate : s.urb.current_state = OFF)
    (hact : check_activity s = true) :
    (((fsm_urbanite_fire s).urb.current_state = MEASURE) ↔
      s.urb.on_off_press_time_ms < s.button.duration_ms) ∧
    (s.urb.on_off_press_time_ms < s.button.duration_ms →
      (fsm_urbanite_fire s).button.duration_ms = 0 ∧
      (fsm_urbanite_fire s).ultra.status = true ∧
      (fsm_urbanite_fire s).ultra.distance_idx = 0 ∧
      (fsm_urbanite_fire s).ultra_port.trigger_ready = true ∧
      (fsm_urbanite_fire s).ultra_port.cycle_timer_on = true ∧
      (fsm_urbanite_fire s).display.status = true) ∧
    (¬ s.urb.on_off_press_time_ms < s.button.duration_ms →
      fsm_urbanite_fire s = s) := by
  rw [fire_from_OFF s hstate]
  have hna : check_no_activity s = false := by
    simp [check_no_activity, hact]
  by_cases hd : s.urb.on_off_press_time_ms < s.button.duration_ms
  · have hon : check_on s = true := by
      simp only [check_on, fsm_button_get_duration, Bool.and_eq_true,
        decide_eq_true_eq]
      omega
    simp [hna, hon, hd, setUrbState, do_start_up_measure, fsm_button_reset_duration,
      fsm_ultrasound_start, fsm_display_set_status,
      port_ultrasound_start_new_measurement_timer, port_ultrasound_set_trigger_ready,
      port_ultrasound_reset_echo_ticks, MEASURE]
  · have hon : check_on s = false := by
      simp only [check_on, fsm_button_get_duration, Bool.and_eq_true,
        decide_eq_true_eq, Bool.and_eq_false_iff, decide_eq_false_iff_not]
      omega
    simp [hna, hon, hd, hstate, OFF, MEASURE]

/-- C3 witness: a 1001 ms press in OFF with the button leaf active powers
the system on. -/
theorem claim_C3_power_on_amended_witness :
    (off_sys 1001).urb.current_state = OFF ∧
    check_activity (off_sys 1001) = true ∧
    (fsm_urbanite_fire (off_sys 1001)).urb.current_state = MEASURE :=
  ⟨rfl, by decide,
   (claim_C3_power_on_amended (off_sys 1001) rfl (by decide)).1.mpr (by decide)⟩

/-- C4 counterexample: with the production thresholds a press of exactly
emergency_ms = 3000 ms neither enters emergency from MEASURE (with a leaf
active and no sample pending, so no earlier row interferes) nor leaves
emergency, because check_emergency_on and check_emergency_off demand a
duration strictly greater than emergency_ms. -/
theorem claim_C4_counterexample :
    (measure_sys 3000).button.duration_ms = (measure_sys 3000).urb.emergency_time_ms ∧
    check_activity (measure_sys 3000) = true ∧
    (measure_sys 3000).ultra.new_measurement = false ∧
    (fsm_urbanite_fire (measure_sys 3000)).urb.current_state ≠ EMERGENCY ∧
    (emergency_sys 3000).button.duration_ms =
      (emergency_sys 3000).urb.emergency_time_ms ∧
    (fsm_urbanite_fire (emergency_sys 3000)).urb.current_state ≠ MEASURE := by
  decide

/-- C4 amended: with the thresholds ordered as configured
(pause_ms < on_off_ms < emergency_ms), a press strictly longer than
emergency_ms - not merely at least emergency_ms - drives
MEASURE -> EMERGENCY (duration reset, ultrasound stopped, display
enabled, emergency and phase flags set) provided no new sample is pending
and a leaf is active so that no earlier row of the table fires, and
EMERGENCY -> MEASURE (duration reset, ultrasound restarted, emergency
cleared, pause re-applied to the display if previously paused); no press
of at most emergency_ms ever causes either transition. -/
theorem claim_C4_emergency_amended (s : UrbaniteSys)
    (hord : s.urb.pause_display_time_ms < s.urb.on_off_press_time_ms ∧
      s.urb.on_off_press_time_ms < s.urb.emergency_time_ms) :
    (s.urb.current_state = MEASURE →
      ((fsm_urbanite_fire s).urb.current_state = EMERGENCY →
        s.urb.emergency_time_ms < s.button.duration_ms) ∧
      (s.ultra.new_measurement = false → check_activity s = true →
        (((fsm_urbanite_fire s).urb.current_state = EMERGENCY) ↔
          s.urb.emergency_time_ms < s.button.duration_ms) ∧
        (s.urb.emergency_time_ms < s.button.duration_ms →
          (fsm_urbanite_fire s).button.duration_ms = 0 ∧
          (fsm_urbanite_fire s).ultra.status = false ∧
          (fsm_urbanite_fire s).display.status = true ∧
          (fsm_urbanite_fire s).urb.emergency = true ∧
          (fsm_urbanite_fire s).urb.emergency_aux = true))) ∧
    (s.urb.current_state = EMERGENCY →
      (((fsm_urbanite_fire s).urb.current_state = MEASURE) ↔
        s.urb.emergency_time_ms < s.button.duration_ms) ∧
      (s.urb.emergency_time_ms < s.button.duration_ms →
        (fsm_urbanite_fire s).button.duration_ms = 0 ∧
        (fsm_urbanite_fire s).ultra.status = true ∧
        (fsm_urbanite_fire s).urb.emergency = false ∧
        (fsm_urbanite_fire s).urb.emergency_aux = false ∧
        (fsm_urbanite_fire s).display.status =
          (if s.urb.is_paused = true then false else s.display.status))) := by
  obtain ⟨hord1, hord2⟩ := hord
  constructor
  · intro hM
    constructor
    · intro hfire
      rw [fire_from_MEASURE s hM] at hfire
      split_ifs at hfire with h1 h2 h3 h4 h5
      · simp [setUrbState, MEASURE, EMERGENCY] at hfire
      · simp [setUrbState, MEASURE, EMERGENCY] at hfire
      · simp [setUrbState, SLEEP_WHILE_ON, EMERGENCY] at hfire
      · simp only [check_emergency_on, fsm_button_get_duration, Bool.and_eq_true,
          decide_eq_true_eq] at h4
        omega
      · simp [setUrbState, OFF, EMERGENCY] at hfire
      · rw [hM] at hfire
        simp [MEASURE, EMERGENCY] at hfire
    · intro hnm hact
      have h2 : check_new_measure s = false := by
        simp [check_new_measure, fsm_ultrasound_get_new_measurement_ready, hnm]
      have h3 : check_no_activity s = false := by
        simp [check_no_activity, hact]
      by_cases hd : s.urb.emergency_time_ms < s.button.duration_ms
      · have h1 : check_pause_display s = false := by
          simp only [check_pause_display, fsm_button_get_duration,
            Bool.and_eq_false_iff, decide_eq_false_iff_not]
          omega
        have h4 : check_emergency_on s = true := by
          simp only [check_emergency_on, fsm_button_get_duration, Bool.and_eq_true,
            decide_eq_true_eq]
          omega
        rw [fire_from_MEASURE s hM]
        simp [h1, h2, h3, h4, hd, setUrbState, do_start_emergency,
          fsm_button_reset_duration, fsm_display_set_status, fsm_ultrasound_stop,
          EMERGENCY]
      · have h4 : check_emergency_on s = false := by
          simp only [check_emergency_on, fsm_button_get_duration,
            Bool.and_eq_false_iff, decide_eq_false_iff_not]
          omega
        rw [fire_from_MEASURE s hM]
        refine ⟨?_, fun hc => absurd hc hd⟩
        simp only [h2, h3, h4, Bool.false_eq_true, if_false]
        split_ifs with h1 h5
        · simp [setUrbState, MEASURE, EMERGENCY, hd]
        · simp [setUrbState, OFF, EMERGENCY, hd]
        · simp [hM, MEASURE, EMERGENCY, hd]
  · intro hE
    by_cases hd : s.urb.emergency_time_ms < s.button.duration_ms
    · have hoff : check_emergency_off s = true := by
        simp only [check_emergency_off, fsm_button_get_duration, Bool.and_eq_true,
          decide_eq_true_eq]
        omega
      rw [fire_from_EMERGENCY s hE]
      simp [hoff, hd, setUrbState, do_stop_emergency, fsm_button_reset_duration,
        fsm_ultrasound_start, fsm_display_set_status, MEASURE]
      by_cases hp : s.urb.is_paused = true <;> simp [hp, fsm_display_set_status]
    · have hoff : check_emergency_off s = false := by
        simp only [check_emergency_off, fsm_button_get_duration,
          Bool.and_eq_false_iff, decide_eq_false_iff_not]
        omega
      rw [fire_from_EMERGENCY s hE]
      refine ⟨?_, fun hc => absurd hc hd⟩
      simp only [hoff, Bool.false_eq_true, if_false]
      split_ifs with hc
      · simp [setUrbState, EMERGENCY, MEASURE, hd]
      · simp [hE, EMERGENCY, MEASURE, hd]

/-- C4 witness: a 3001 ms press in MEASURE (leaf active, no pending
sample) enters EMERGENCY, and a 3001 ms press in EMERGENCY leaves it. -/
theorem claim_C4_emergency_amended_witness :
    (fsm_urbanite_fire (measure_sys 3001)).urb.current_state = EMERGENCY ∧
    (fsm_urbanite_fire (emergency_sys 3001)).urb.current_state = MEASURE :=
  ⟨(((claim_C4_emergency_amended (measure_sys 3001)
      ⟨by decide, by decide⟩).1 rfl).2 rfl (by decide)).1.mpr (by decide),
   ((claim_C4_emergency_amended (emergency_sys 3001)
      ⟨by decide, by decide⟩).2 rfl).1.mpr (by decide)⟩

/-- C6 counterexample: in SLEEP_WHILE_ON with the button leaf active but
no new measurement pending, the next fire stays in SLEEP_WHILE_ON: the
wake row of SLEEP_WHILE_ON tests only the new-measurement flag, not leaf
activity, so the claimed return to MEASURE does not happen. -/
theorem claim_C6_counterexample :
    sleep_on_sys.urb.current_state = SLEEP_WHILE_ON ∧
    check_activity sleep_on_sys = true ∧
    (fsm_urbanite_fire sleep_on_sys).urb.current_state ≠ MEASURE ∧
    (fsm_urbanite_fire sleep_on_sys).urb.current_state = SLEEP_WHILE_ON := by
  decide

/-- C6 amended: from SLEEP_WHILE_OFF, the next fire after any leaf reports
activity returns to OFF; from SLEEP_WHILE_ON, the next fire returns to
MEASURE exactly when a new ultrasound measurement is pending - leaf
activity alone does not wake that state. -/
theorem claim_C6_sleep_wake_amended (s : UrbaniteSys) :
    (s.urb.current_state = SLEEP_WHILE_OFF → check_activity s = true →
      (fsm_urbanite_fire s).urb.current_state = OFF) ∧
    (s.urb.current_state = SLEEP_WHILE_ON →
      (((fsm_urbanite_fire s).urb.current_state = MEASURE) ↔
        s.ultra.new_measurement = true)) := by
  constructor
  · intro hstate hact
    rw [fire_from_SLEEP_WHILE_OFF s hstate]
    simp [hact, setUrbState]
  · intro hstate
    rw [fire_from_SLEEP_WHILE_ON s hstate]
    by_cases hnm : s.ultra.new_measurement = true
    · have hm : check_activity_in_measure s = true := by
        simp [check_activity_in_measure, check_new_measure,
          fsm_ultrasound_get_new_measurement_ready, hnm]
      simp [hm, hnm, setUrbState]
    · have hm : check_activity_in_measure s = false := by
        simp only [check_activity_in_measure, check_new_measure,
          fsm_ultrasound_get_new_measurement_ready]
        simp at hnm
        exact hnm
      simp only [hm, Bool.false_eq_true, if_false]
      split_ifs with hna
      · simp [setUrbState, SLEEP_WHILE_ON, MEASURE, hnm]
      · simp [hstate, SLEEP_WHILE_ON, MEASURE, hnm]

/-- C6 witness: the button wakes SLEEP_WHILE_OFF back to OFF, and a
pending measurement wakes SLEEP_WHILE_ON back to MEASURE. -/
theorem claim_C6_sleep_wake_amended_witness :
    (fsm_urbanite_fire sleep_off_sys).urb.current_state = OFF ∧
    (fsm_urbanite_fire sleep_on_ready_sys).urb.current_state = MEASURE :=
  ⟨(claim_C6_sleep_wake_amended sleep_off_sys).1 rfl (by decide),
   ((claim_C6_sleep_wake_amended sleep_on_ready_sys).2 rfl).mpr rfl⟩
